import Mathlib

/-!
Shallow embedding of `src/jenkins-builder.c` (jenkins-builder 0.1.0).

The program: parse `--credential-file`/`--jenkins-host` flags, read the
`PROJECTS` environment variable, load JSON credentials (`user`, `token`),
then for each `:`-separated project issue an authenticated HTTP POST to
`{host}/job/{project}/build` via libcurl, stopping at the first non-zero
dispatch result and returning it from `main`.

External effects (file I/O, the json-c tokener, libcurl) are modelled as
inputs in a `World` record; the program logic itself is embedded as pure
functions that mirror the C control flow statement by statement.
-/

namespace JenkinsBuilder

/-- Model of a parsed json-c document (`json_object`). The constructors
cover the json-c value kinds relevant to `json_object_is_type` checks. -/
inductive Json where
  | null
  | boolean (b : Bool)
  | int (n : Int)
  | str (s : String)
  | arr (elems : List Json)
  | obj (members : List (String × Json))

/-- Association-list lookup over the members of a parsed JSON object,
first match wins (a parsed json-c object has unique keys). -/
def lookupMember : List (String × Json) → String → Option Json
  | [], _ => none
  | (k, v) :: rest, key => if k = key then some v else lookupMember rest key

/-- Model of `json_object_object_get(object, key)`: field lookup; `none` models the
NULL result for a missing key or a non-object argument. -/
def json_object_object_get (object : Json) (key : String) : Option Json :=
  match object with
  | Json.obj members => lookupMember members key
  | _ => none

/-- Combination of `json_object_object_get` with the source's
`NULL == x || !json_object_is_type(x, json_type_string)` test:
`true` iff the key is present with a string value. -/
def isStringField (object : Json) (key : String) : Bool :=
  match json_object_object_get object key with
  | some (Json.str _) => true
  | _ => false

/-- Model of `json_object_get_string` as this program uses it: it is only ever applied
to a lookup result that already passed the `json_type_string` check, where it
returns the string payload. (json-c would stringify other kinds; that branch
is unreachable here.) -/
def json_object_get_string : Option Json → String
  | some (Json.str s) => s
  | _ => ""

/-- The `Credentials` struct (`char* user; char* token;`); `none` models a
NULL pointer, as in the zero-initialised `Credentials credentials = {0}`. -/
structure Credentials where
  user : Option String := none
  token : Option String := none
deriving DecidableEq

/-- Model of `get_user_credentials(Credentials*, const char*)` from jenkins-builder.c
(lines 95-120). Its first step, `json_tokener_parse(string)`, is an external
library call modelled by the `parsed : Option Json` argument (`none` = the
tokener returned NULL, i.e. the contents were not valid JSON). Returns the C
return code paired with the (possibly updated) credentials struct:
- parse failure → 1,
- `user` key absent or not a string → 2,
- `token` key absent or not a string → 3,
- otherwise both fields are written (strdup'd) and the code is 0. -/
def get_user_credentials (credentials : Credentials) (parsed : Option Json) :
    Int × Credentials :=
  match parsed with
  | none => (1, credentials)
  | some object =>
    if isStringField object "user" = false then (2, credentials)
    else if isStringField object "token" = false then (3, credentials)
    else
      (0, { user := some (json_object_get_string
                      (json_object_object_get object "user")),
            token := some (json_object_get_string
                      (json_object_object_get object "token")) })

/-- Model of `get_project_url_owned(jenkins_url, project)` (lines 125-141): allocate a
buffer of exactly the combined length, zero it, and `strcat` the four pieces
in order. (The NULL return on `malloc` failure is an allocation event outside
the model.) The result is the plain byte concatenation. -/
def get_project_url_owned (jenkins_url : String) (project : String) : String :=
  let job := "/job/"
  let build := "/build"
  jenkins_url ++ job ++ project ++ build

/-- Outcome of one `curl_easy_perform` on the reused handle, as observed by
`build_project`:
- `ok status` — `CURLE_OK`; `status` is the final HTTP response code, which
  the program never reads on this path;
- `fail errorDesc responseCode` — a non-`CURLE_OK` result with its
  `curl_easy_strerror` text, and the value `CURLINFO_RESPONSE_CODE` then
  reports: the last HTTP response code received during the transfer, or 0 if
  no server response code was received (e.g. the host was unreachable). -/
inductive CurlOutcome where
  | ok (status : Int)
  | fail (errorDesc : String) (responseCode : Int)
deriving DecidableEq

/-- Model of `build_project(curl, project_url, project)` (lines 143-159). The handle's
behaviour is modelled by `net : String → CurlOutcome`, keyed by the URL the
options set. On `CURLE_OK` the function returns 0 without inspecting the HTTP
status; otherwise it prints a diagnostic naming the project and returns
whatever `CURLINFO_RESPONSE_CODE` yielded (which is 0 when no response code
was received). -/
def build_project (net : String → CurlOutcome) (project_url : String) : Int :=
  match net project_url with
  | CurlOutcome.ok _ => 0
  | CurlOutcome.fail _ responseCode => responseCode

/-- The `strtok_r(env, ":", &saveptr)` loop of `main` (lines 220-223),
accumulated over the whole string: `strtok_r` skips runs of delimiter
characters and returns each maximal non-empty run of non-delimiter
characters, so leading, trailing and doubled delimiters produce no empty
tokens. `acc` is the token being assembled. -/
def tokenizeAux (delim : Char) : List Char → List Char → List (List Char)
  | [], acc => if acc = [] then [] else [acc]
  | c :: rest, acc =>
    if c = delim then
      if acc = [] then tokenizeAux delim rest []
      else acc :: tokenizeAux delim rest []
    else tokenizeAux delim rest (acc ++ [c])

/-- All tokens `strtok_r` produces from `s` with the single delimiter
`delim`, in order. -/
def strtokAll (delim : Char) (s : String) : List String :=
  (tokenizeAux delim s.toList []).map (fun cs => String.mk cs)

/-- One run's external inputs:
- `projectsEnv`: `getenv("PROJECTS")` (`none` = unset);
- `credFileContents`: the result of `get_file_contents` on the credential
  file (`none` = stat/open/alloc/read failure);
- `parseJson`: `json_tokener_parse` (`none` = invalid JSON);
- `curlInit`: whether `curl_easy_init` succeeds;
- `net`: per-URL outcome of `curl_easy_perform` on the configured handle. -/
structure World where
  projectsEnv : Option String
  credFileContents : Option String
  parseJson : String → Option Json
  curlInit : Bool
  net : String → CurlOutcome

/-- Linux `errno` value `EINVAL`, returned by `main` both when `PROJECTS` is
unset and when `get_file_contents` fails. -/
def EINVAL : Int := 22

/-- Linux `errno` value `ENOMEM`, returned by `main` when `curl_easy_init`
fails. -/
def ENOMEM : Int := 12

/-- The project loop of `main` (lines 220-232): for each token, build the
URL, dispatch, free the URL, and `break` on a non-zero result. Returns the
final value of `result` (entering with `result = 0` from the credentials
step) together with the ordered list of URLs actually POSTed — each loop
iteration performs exactly one POST. -/
def runLoop (net : String → CurlOutcome) (jenkins_host : String) :
    List String → Int × List String
  | [] => (0, [])
  | project :: rest =>
    let project_url := get_project_url_owned jenkins_host project
    let result := build_project net project_url
    if result ≠ 0 then (result, [project_url])
    else
      let step := runLoop net jenkins_host rest
      (step.1, project_url :: step.2)

/-- Model of `main` (lines 190-237) after `argp_parse` has supplied the two flags
(`jenkins_host` is the `-h` value; the credential path only feeds
`get_file_contents`, whose result `w.credFileContents` holds). Returns the
process's return value paired with the ordered list of URLs POSTed:
- `PROJECTS` unset → `EINVAL`;
- credential file unreadable → `EINVAL`;
- `get_user_credentials` non-zero → that code;
- `curl_easy_init` failure → `ENOMEM`;
- otherwise the handle gets Basic-auth options and the loop runs over the
  `strtok_r` tokens of `PROJECTS`. -/
def main (w : World) (jenkins_host : String) : Int × List String :=
  match w.projectsEnv with
  | none => (EINVAL, [])
  | some env_projects =>
    match w.credFileContents with
    | none => (EINVAL, [])
    | some credentials_file =>
      match get_user_credentials {} (w.parseJson credentials_file) with
      | (result, _credentials) =>
        if result ≠ 0 then (result, [])
        else if w.curlInit = false then (ENOMEM, [])
        else runLoop w.net jenkins_host (strtokAll ':' env_projects)

/-- Every token `tokenizeAux` emits is non-empty: a token is only emitted
when the accumulator is non-empty, and the accumulator only grows by
appending a character. -/
theorem tokenizeAux_ne_nil (delim : Char) :
    ∀ (l acc : List Char), ∀ t ∈ tokenizeAux delim l acc, t ≠ [] := by
  intro l
  induction l with
  | nil =>
    intro acc t ht
    by_cases ha : acc = []
    · simp [tokenizeAux, ha] at ht
    · simp [tokenizeAux, ha] at ht
      exact ht ▸ ha
  | cons c rest ih =>
    intro acc t ht
    by_cases hc : c = delim
    · by_cases ha : acc = []
      · simp [tokenizeAux, hc, ha] at ht
        exact ih [] t ht
      · simp [tokenizeAux, hc, ha] at ht
        rcases ht with h1 | h2
        · exact h1 ▸ ha
        · exact ih [] t h2
    · simp [tokenizeAux, hc] at ht
      exact ih (acc ++ [c]) t ht

/-- Function `strtokAll` (the `strtok_r` loop) never yields the empty string as a token. -/
theorem strtokAll_ne_empty (delim : Char) (s : String) :
    ∀ t ∈ strtokAll delim s, t ≠ "" := by
  intro t ht hempty
  rcases List.mem_map.mp ht with ⟨cs, hcs, hmk⟩
  have hnil : cs = [] := congrArg String.data (hmk.trans hempty)
  exact tokenizeAux_ne_nil delim s.toList [] cs hcs hnil

/-- C1: the claim says that on a transport failure `build_project` returns
the HTTP response status code if one was obtained and otherwise a sentinel
non-zero value, so that with the host unreachable for the first project the
loop halts after one POST with a non-zero exit.  At that exact input the code
does the opposite: `CURLINFO_RESPONSE_CODE` reports 0 when no response was
received, `build_project` returns that 0 from its error branch, the loop does
not break, the second project is also POSTed, and `main` returns 0. -/
theorem c1_unreachable_host_returns_zero_and_loop_continues :
    build_project (fun _ => CurlOutcome.fail "Couldn't connect to server" 0)
        (get_project_url_owned "http://ci.example.com" "a") = 0
    ∧ main ⟨some "a:b", some "cred",
        fun _ => some (Json.obj [("user", Json.str "u"), ("token", Json.str "t")]),
        true, fun _ => CurlOutcome.fail "Couldn't connect to server" 0⟩
        "http://ci.example.com"
      = (0, ["http://ci.example.com/job/a/build",
             "http://ci.example.com/job/b/build"]) := by
  decide

/-- C2: whenever `curl_easy_perform` reports transport success, the
dispatcher returns 0 without inspecting the HTTP status — even a 401 on every
request still lets the whole run exit 0 with every project POSTed. -/
theorem c2_transport_success_ignores_http_status :
    (∀ (net : String → CurlOutcome) (project_url : String) (status : Int),
        net project_url = CurlOutcome.ok status →
        build_project net project_url = 0)
    ∧ main ⟨some "a:b", some "cred",
        fun _ => some (Json.obj [("user", Json.str "u"), ("token", Json.str "t")]),
        true, fun _ => CurlOutcome.ok 401⟩ "http://h"
      = (0, ["http://h/job/a/build", "http://h/job/b/build"]) := by
  constructor
  · intro net project_url status h
    simp [build_project, h]
  · decide

/-- Witness for C2 at a concrete rejected request (HTTP 401). -/
theorem c2_witness :
    build_project (fun _ => CurlOutcome.ok 401) "http://h/job/a/build" = 0 :=
  c2_transport_success_ignores_http_status.1 _ _ 401 rfl

/-- C3: the driver tokenises `PROJECTS` on `:` and dispatches the tokens in
order; if every dispatch returns 0 the loop visits all of them and the result
is 0; if the dispatches before some token all return 0 and that token's
dispatch is non-zero, the loop POSTs exactly the tokens up to and including
it and propagates that non-zero result; `"a:b:c"` tokenises to
`["a", "b", "c"]`; and once the setup steps succeed, `main`'s return value is
exactly the loop's result over those tokens. -/
theorem c3_driver_order_early_stop_propagation :
    (∀ (net : String → CurlOutcome) (host : String) (ps : List String),
        (∀ p ∈ ps, build_project net (get_project_url_owned host p) = 0) →
        runLoop net host ps = (0, ps.map (get_project_url_owned host)))
    ∧ (∀ (net : String → CurlOutcome) (host : String) (ps1 : List String)
          (p : String) (ps2 : List String),
        (∀ q ∈ ps1, build_project net (get_project_url_owned host q) = 0) →
        build_project net (get_project_url_owned host p) ≠ 0 →
        runLoop net host (ps1 ++ p :: ps2)
          = (build_project net (get_project_url_owned host p),
             (ps1 ++ [p]).map (get_project_url_owned host)))
    ∧ strtokAll ':' "a:b:c" = ["a", "b", "c"]
    ∧ (∀ (w : World) (host env s : String),
        w.projectsEnv = some env → w.credFileContents = some s →
        (get_user_credentials {} (w.parseJson s)).1 = 0 → w.curlInit = true →
        main w host = runLoop w.net host (strtokAll ':' env)) := by
  refine ⟨?_, ?_, by decide, ?_⟩
  · intro net host ps h
    induction ps with
    | nil => rfl
    | cons p rest ih =>
      have hp : build_project net (get_project_url_owned host p) = 0 :=
        h p (by simp)
      have hrest := ih (fun q hq => h q (by simp [hq]))
      simp [runLoop, hp, hrest]
  · intro net host ps1 p ps2 h1 hp
    induction ps1 with
    | nil => simp [runLoop, hp]
    | cons q rest ih =>
      have hq : build_project net (get_project_url_owned host q) = 0 :=
        h1 q (by simp)
      have hrest := ih (fun r hr => h1 r (by simp [hr]))
      simp [runLoop, hq, hrest]
  · intro w host env s henv hfile hcred hcurl
    rcases hg : get_user_credentials {} (w.parseJson s) with ⟨r, cr⟩
    rw [hg] at hcred
    simp only at hcred
    subst hcred
    simp [main, henv, hfile, hg, hcurl]

/-- Witness for C3: with `b`'s dispatch failing with HTTP 404, the run over
`["a", "b", "c"]` stops after `b` with result 404; and at a concrete
all-success world `main` equals the loop over the tokens of `"a:b:c"`. -/
theorem c3_witness :
    runLoop
        (fun u => if u = "h/job/b/build" then CurlOutcome.fail "err" 404
                  else CurlOutcome.ok 201)
        "h" (["a"] ++ "b" :: ["c"])
      = (build_project
          (fun u => if u = "h/job/b/build" then CurlOutcome.fail "err" 404
                    else CurlOutcome.ok 201)
          (get_project_url_owned "h" "b"),
         (["a"] ++ ["b"]).map (get_project_url_owned "h"))
    ∧ main ⟨some "a:b:c", some "cred",
        fun _ => some (Json.obj [("user", Json.str "u"), ("token", Json.str "t")]),
        true, fun _ => CurlOutcome.ok 201⟩ "h"
      = runLoop (fun _ => CurlOutcome.ok 201) "h" (strtokAll ':' "a:b:c") :=
  ⟨c3_driver_order_early_stop_propagation.2.1
      (fun u => if u = "h/job/b/build" then CurlOutcome.fail "err" 404
                else CurlOutcome.ok 201)
      "h" ["a"] "b" ["c"] (by decide) (by decide),
   c3_driver_order_early_stop_propagation.2.2.2
      ⟨some "a:b:c", some "cred",
        fun _ => some (Json.obj [("user", Json.str "u"), ("token", Json.str "t")]),
        true, fun _ => CurlOutcome.ok 201⟩
      "h" "a:b:c" "cred" rfl rfl (by decide) rfl⟩

/-- C5: the claim says a malformed `PROJECTS` value (leading, trailing or
doubled colons) can place an empty string in the dispatched project list.
It cannot: the split is the `strtok_r` loop, which skips delimiter runs, so
no value of `PROJECTS` ever yields an empty token — at the claim's own
malformed inputs the empty segments simply vanish. -/
theorem c5_counterexample_no_empty_tokens :
    (¬ ∃ env : String, "" ∈ strtokAll ':' env)
    ∧ strtokAll ':' ":a" = ["a"]
    ∧ strtokAll ':' "a:" = ["a"]
    ∧ strtokAll ':' "a::b" = ["a", "b"] := by
  refine ⟨?_, by decide, by decide, by decide⟩
  rintro ⟨env, hmem⟩
  exact strtokAll_ne_empty ':' env "" hmem rfl

/-- C5 (amended): splitting `PROJECTS` with `strtok_r` on `:` treats runs of
colons as one separator and ignores leading and trailing colons, so the
project list never contains an empty segment, malformed input or not. -/
theorem c5_amended_split_never_empty :
    (∀ (env t : String), t ∈ strtokAll ':' env → t ≠ "")
    ∧ strtokAll ':' ":a::b:" = ["a", "b"] := by
  exact ⟨fun env t ht => strtokAll_ne_empty ':' env t ht, by decide⟩

/-- Witness for C5 (amended) at the malformed value `":a::b:"` and its first
token. -/
theorem c5_witness :
    ("a" ∈ strtokAll ':' ":a::b:") ∧ "a" ≠ "" :=
  ⟨by decide, c5_amended_split_never_empty.1 ":a::b:" "a" (by decide)⟩

/-- C6: the build-trigger URL is the byte-for-byte concatenation
`host ++ "/job/" ++ project ++ "/build"`: special characters in the project
name are not encoded, no slash is added or removed, and a host with a
trailing `/` yields a doubled slash. -/
theorem c6_url_is_plain_concatenation :
    (∀ host project : String,
        get_project_url_owned host project
          = host ++ "/job/" ++ project ++ "/build")
    ∧ (∀ host project : String,
        get_project_url_owned (host ++ "/") project
          = host ++ "//job/" ++ project ++ "/build")
    ∧ get_project_url_owned "http://ci.example.com" "foo"
        = "http://ci.example.com/job/foo/build"
    ∧ get_project_url_owned "http://ci.example.com" "a b/c?&%25"
        = "http://ci.example.com/job/a b/c?&%25/build" := by
  refine ⟨fun host project => rfl, ?_, by decide, by decide⟩
  intro host project
  show host ++ "/" ++ "/job/" ++ project ++ "/build"
      = host ++ "//job/" ++ project ++ "/build"
  rw [String.append_assoc host "/" "/job/"]
  rfl

/-- C4: the claim says the exit codes of the listed failure causes are
pairwise distinct.  They are not: an unset `PROJECTS` and an unreadable
credential file both make `main` return `EINVAL` (22). -/
theorem c4_counterexample_einval_collision :
    main ⟨none, some "x", fun _ => none, true, fun _ => CurlOutcome.ok 200⟩
        "h" = (EINVAL, [])
    ∧ main ⟨some "a", none, fun _ => none, true, fun _ => CurlOutcome.ok 200⟩
        "h" = (EINVAL, [])
    ∧ EINVAL ≠ 0 := by
  decide

/-- C4 (amended): `PROJECTS` unset and an unreadable credential file share
the exit code `EINVAL`; the other causes are distinct non-zero codes —
invalid JSON → 1, missing/invalid `user` → 2, missing/invalid `token` → 3,
`curl_easy_init` failure → `ENOMEM` — pairwise distinct and distinct from
`EINVAL`; and a first-project dispatch failure with a non-zero result makes
`main` return that raw result. -/
theorem c4_amended_exit_codes :
    (∀ (w : World) (host : String),
        w.projectsEnv = none → main w host = (EINVAL, []))
    ∧ (∀ (w : World) (host env : String),
        w.projectsEnv = some env → w.credFileContents = none →
        main w host = (EINVAL, []))
    ∧ (∀ (w : World) (host env s : String),
        w.projectsEnv = some env → w.credFileContents = some s →
        w.parseJson s = none → main w host = (1, []))
    ∧ (∀ (w : World) (host env s : String) (object : Json),
        w.projectsEnv = some env → w.credFileContents = some s →
        w.parseJson s = some object → isStringField object "user" = false →
        main w host = (2, []))
    ∧ (∀ (w : World) (host env s : String) (object : Json),
        w.projectsEnv = some env → w.credFileContents = some s →
        w.parseJson s = some object → isStringField object "user" = true →
        isStringField object "token" = false → main w host = (3, []))
    ∧ (∀ (w : World) (host env s : String),
        w.projectsEnv = some env → w.credFileContents = some s →
        (get_user_credentials {} (w.parseJson s)).1 = 0 → w.curlInit = false →
        main w host = (ENOMEM, []))
    ∧ (∀ (w : World) (host env s p : String) (rest : List String),
        w.projectsEnv = some env → w.credFileContents = some s →
        (get_user_credentials {} (w.parseJson s)).1 = 0 → w.curlInit = true →
        strtokAll ':' env = p :: rest →
        build_project w.net (get_project_url_owned host p) ≠ 0 →
        main w host = (build_project w.net (get_project_url_owned host p),
                       [get_project_url_owned host p]))
    ∧ [(1 : Int), 2, 3, ENOMEM, EINVAL].Pairwise (· ≠ ·) := by
  refine ⟨?_, ?_, ?_, ?_, ?_, ?_, ?_, by decide⟩
  · intro w host henv
    simp [main, henv]
  · intro w host env henv hfile
    simp [main, henv, hfile]
  · intro w host env s henv hfile hjson
    simp [main, henv, hfile, hjson, get_user_credentials]
  · intro w host env s object henv hfile hjson huser
    simp [main, henv, hfile, hjson, get_user_credentials, huser]
  · intro w host env s object henv hfile hjson huser htoken
    simp [main, henv, hfile, hjson, get_user_credentials, huser, htoken]
  · intro w host env s henv hfile hcred hcurl
    rcases hg : get_user_credentials {} (w.parseJson s) with ⟨r, cr⟩
    rw [hg] at hcred
    simp only at hcred
    subst hcred
    simp [main, henv, hfile, hg, hcurl]
  · intro w host env s p rest henv hfile hcred hcurl htok hbuild
    rcases hg : get_user_credentials {} (w.parseJson s) with ⟨r, cr⟩
    rw [hg] at hcred
    simp only at hcred
    subst hcred
    simp [main, henv, hfile, hg, hcurl, htok, runLoop, hbuild]

/-- Witness for C4 (amended), applying each conditional conjunct at a
concrete world: unset `PROJECTS`; unreadable file; invalid JSON; an object
with no `user`; an object whose `token` is a number; a failed
`curl_easy_init`; and a first dispatch failing with HTTP 503. -/
theorem c4_witness :
    main ⟨none, some "x", fun _ => none, true, fun _ => CurlOutcome.ok 200⟩
        "h" = (EINVAL, [])
    ∧ main ⟨some "a", none, fun _ => none, true, fun _ => CurlOutcome.ok 200⟩
        "h" = (EINVAL, [])
    ∧ main ⟨some "a", some "oops", fun _ => none, true,
        fun _ => CurlOutcome.ok 200⟩ "h" = (1, [])
    ∧ main ⟨some "a", some "{}", fun _ => some (Json.obj []), true,
        fun _ => CurlOutcome.ok 200⟩ "h" = (2, [])
    ∧ main ⟨some "a", some "cred",
        fun _ => some (Json.obj [("user", Json.str "u"), ("token", Json.int 5)]),
        true, fun _ => CurlOutcome.ok 200⟩ "h" = (3, [])
    ∧ main ⟨some "a", some "cred",
        fun _ => some (Json.obj [("user", Json.str "u"), ("token", Json.str "t")]),
        false, fun _ => CurlOutcome.ok 200⟩ "h" = (ENOMEM, [])
    ∧ main ⟨some "a", some "cred",
        fun _ => some (Json.obj [("user", Json.str "u"), ("token", Json.str "t")]),
        true, fun _ => CurlOutcome.fail "err" 503⟩ "h"
      = (build_project (fun _ => CurlOutcome.fail "err" 503)
           (get_project_url_owned "h" "a"),
         [get_project_url_owned "h" "a"]) :=
  ⟨c4_amended_exit_codes.1 _ "h" rfl,
   c4_amended_exit_codes.2.1 _ "h" "a" rfl rfl,
   c4_amended_exit_codes.2.2.1 _ "h" "a" "oops" rfl rfl rfl,
   c4_amended_exit_codes.2.2.2.1 _ "h" "a" "{}" (Json.obj []) rfl rfl rfl rfl,
   c4_amended_exit_codes.2.2.2.2.1 _ "h" "a" "cred"
     (Json.obj [("user", Json.str "u"), ("token", Json.int 5)])
     rfl rfl rfl rfl rfl,
   c4_amended_exit_codes.2.2.2.2.2.1 _ "h" "a" "cred" rfl rfl rfl rfl,
   c4_amended_exit_codes.2.2.2.2.2.2.1 _ "h" "a" "cred" "a" [] rfl rfl rfl rfl
     rfl (by decide)⟩

/-- C7: for any parsed JSON object whose `user` and `token` fields are the
strings `u` and `t`, the credential loader returns 0 and a `Credentials`
value holding exactly `u` and `t`. -/
theorem c7_credentials_roundtrip (c : Credentials) (object : Json)
    (u t : String)
    (hu : json_object_object_get object "user" = some (Json.str u))
    (ht : json_object_object_get object "token" = some (Json.str t)) :
    get_user_credentials c (some object)
      = (0, { user := some u, token := some t }) := by
  simp [get_user_credentials, isStringField, json_object_get_string, hu, ht]

/-- Witness for C7 at a payload with embedded Unicode and punctuation. -/
theorem c7_witness :
    get_user_credentials {}
        (some (Json.obj [("user", Json.str "ülrich, Jr. 標"),
                         ("token", Json.str "t0kén!:@#$%")]))
      = (0, { user := some "ülrich, Jr. 標", token := some "t0kén!:@#$%" }) :=
  c7_credentials_roundtrip {} _ "ülrich, Jr. 標" "t0kén!:@#$%" rfl rfl

/-- C8: the loader's three failure cases return 1 (invalid JSON), 2 (missing
or non-string `user`), and 3 (missing or non-string `token`), which are
non-zero and pairwise distinct. -/
theorem c8_failure_codes_distinct :
    (∀ c : Credentials, (get_user_credentials c none).1 = 1)
    ∧ (∀ (c : Credentials) (object : Json),
        isStringField object "user" = false →
        (get_user_credentials c (some object)).1 = 2)
    ∧ (∀ (c : Credentials) (object : Json),
        isStringField object "user" = true →
        isStringField object "token" = false →
        (get_user_credentials c (some object)).1 = 3)
    ∧ (1 : Int) ≠ 0 ∧ (2 : Int) ≠ 0 ∧ (3 : Int) ≠ 0
    ∧ (1 : Int) ≠ 2 ∧ (1 : Int) ≠ 3 ∧ (2 : Int) ≠ 3 := by
  refine ⟨fun c => rfl, ?_, ?_, by decide, by decide, by decide, by decide,
    by decide, by decide⟩
  · intro c object h
    simp [get_user_credentials, h]
  · intro c object hu ht
    simp [get_user_credentials, hu, ht]

/-- Witness for C8: invalid JSON, an object with no `user`, and an object
with a string `user` but numeric `token`. -/
theorem c8_witness :
    (get_user_credentials {} none).1 = 1
    ∧ (get_user_credentials {} (some (Json.obj []))).1 = 2
    ∧ (get_user_credentials {}
        (some (Json.obj [("user", Json.str "u"), ("token", Json.int 7)]))).1
      = 3 :=
  ⟨c8_failure_codes_distinct.1 {},
   c8_failure_codes_distinct.2.1 {} (Json.obj []) rfl,
   c8_failure_codes_distinct.2.2.1 {}
     (Json.obj [("user", Json.str "u"), ("token", Json.int 7)]) rfl rfl⟩

/-- C9: with `PROJECTS` set to the empty string (and the earlier setup steps
succeeding), the loop body never runs: no URL is POSTed and `main`
returns 0. -/
theorem c9_empty_projects_zero_requests (w : World) (host s : String)
    (henv : w.projectsEnv = some "")
    (hfile : w.credFileContents = some s)
    (hcred : (get_user_credentials {} (w.parseJson s)).1 = 0)
    (hcurl : w.curlInit = true) :
    main w host = (0, []) := by
  rcases hg : get_user_credentials {} (w.parseJson s) with ⟨r, cr⟩
  rw [hg] at hcred
  simp only at hcred
  subst hcred
  have htok : strtokAll ':' "" = [] := rfl
  simp [main, henv, hfile, hg, hcurl, htok, runLoop]

/-- Witness for C9 at a concrete world with `PROJECTS=""`. -/
theorem c9_witness :
    main ⟨some "", some "cred",
        fun _ => some (Json.obj [("user", Json.str "u"), ("token", Json.str "t")]),
        true, fun _ => CurlOutcome.ok 200⟩ "http://h" = (0, []) :=
  c9_empty_projects_zero_requests _ "http://h" "cred" rfl rfl rfl rfl

/-- C10: whenever `get_user_credentials` returns a non-zero code, the
caller's `Credentials` struct comes back exactly as it went in — in
particular a payload with a valid `user` but missing `token` writes
neither field; the fields are written only on the 0 path. -/
theorem c10_loader_atomic_on_failure (c : Credentials) (parsed : Option Json)
    (h : (get_user_credentials c parsed).1 ≠ 0) :
    (get_user_credentials c parsed).2 = c := by
  match parsed with
  | none => rfl
  | some object =>
    by_cases hu : isStringField object "user" = false
    · simp [get_user_credentials, hu]
    · by_cases ht : isStringField object "token" = false
      · simp [get_user_credentials, hu, ht]
      · exact absurd (by simp [get_user_credentials, hu, ht]) h

/-- Witness for C10: a payload with a valid `user` but no `token` leaves the
zero-initialised struct untouched. -/
theorem c10_witness :
    (get_user_credentials { user := none, token := none }
        (some (Json.obj [("user", Json.str "u")]))).2
      = { user := none, token := none } :=
  c10_loader_atomic_on_failure _ _ (by decide)

end JenkinsBuilder
